import Mathlib

/-!
Shallow embedding of `src/aws_db_utils.py`.

Python values that flow through the module (JSON-decoded secrets, typed
result cells, connection parameters) are modelled by the inductive `Py`;
Python truthiness is `Py.truthy`.  External collaborators (the Secrets
Manager client, `json.loads`, the Redshift Data API client, the database
drivers) are modelled as oracles passed in as parameters; the calls the
module makes to them are recorded in explicit event lists so that claims
about "no network call was made" are statable.  Python keyword arguments
with defaults (`port=3306`, `port=5439`) are modelled as `Option` arguments
filled with the source's default when the caller omits them.
-/

set_option autoImplicit false

/-- Model of the Python values handled by the module. -/
inductive Py where
  | str (s : String)
  | int (n : Int)
  | float (q : ℚ)
  | bool (b : Bool)
  | none
  | list (xs : List Py)
  | dict (fields : List (String × Py))
  | bytes (bs : List Nat)

/-- Python truthiness for the values above (`if x:`). -/
def Py.truthy : Py → Bool
  | .str s => !(s == "")
  | .int n => !(n == 0)
  | .float q => !(q == 0)
  | .bool b => b
  | .none => false
  | .list xs => !xs.isEmpty
  | .dict fs => !fs.isEmpty
  | .bytes bs => !bs.isEmpty

/-- `a or b` on Python values: the first operand if truthy, else the second. -/
def pyOr (a b : Py) : Py := if a.truthy then a else b

/-- `int(x)` conversion as used for the `port` field. -/
def pyInt : Py → Option Int
  | .int n => some n
  | .bool b => some (if b then 1 else 0)
  | .float q => some (q.num / (q.den : Int))
  | .str s => s.trim.toInt?
  | _ => Option.none

/-- Dictionary lookup on an ordered association list (Python dicts keep
insertion order and have unique keys). -/
def dLookup (fs : List (String × Py)) (k : String) : Option Py :=
  (fs.find? (fun q => q.1 == k)).map (fun q => q.2)

/-- `d.get(k)`: the stored value, or `None` when the key is absent. -/
def dGet (fs : List (String × Py)) (k : String) : Py :=
  (dLookup fs k).getD Py.none

/-- `d.get(k, default)`. -/
def dGetD (fs : List (String × Py)) (k : String) (d : Py) : Py :=
  (dLookup fs k).getD d

/-- `d[k] = v` on a Python dict: overwrite in place, or append a new key. -/
def dictInsert (d : List (String × Py)) (k : String) (v : Py) : List (String × Py) :=
  if (d.find? (fun q => q.1 == k)).isSome then
    d.map (fun q => if q.1 == k then (q.1, v) else q)
  else d ++ [(k, v)]

/-- Truthiness of an optional-string argument (`if secret_name:`). -/
def optStrTruthy : Option String → Bool
  | some s => !(s == "")
  | Option.none => false

/-- An omitted optional string maps to Python `None`, a supplied one to the string. -/
def optPy : Option String → Py
  | some s => Py.str s
  | Option.none => Py.none

/-- The exception kinds raised by the module (`ValueError`, re-raised
`botocore ClientError`, `TypeError` from `int()`, `AttributeError` from
`.get` on a non-dict, `RuntimeError` from the Data API poll loop). -/
inductive PyError where
  | valueError (msg : String)
  | clientError (msg : String)
  | typeError (msg : String)
  | attributeError (msg : String)
  | runtimeError (msg : String)

/- ------------------------------------------------------------------ -/
/- SecretsManagerService.get_secret (src/aws_db_utils.py lines 42-71)  -/
/- ------------------------------------------------------------------ -/

/-- The shape of a `get_secret_value` response: at most one of
`SecretString` / `SecretBinary`. -/
structure SecretResponse where
  secretString : Option String := Option.none
  secretBinary : Option (List Nat) := Option.none

/-- The part of `get_secret` after the client call: truthiness check on
`SecretString`, `json.loads` attempt with plain-string fallback, then the
`SecretBinary` branch, else `ValueError`. -/
def secretBinaryCase (resp : SecretResponse) : Except PyError Py :=
  match resp.secretBinary with
  | some b =>
      if !b.isEmpty then Except.ok (Py.dict [("secret_binary", Py.bytes b)])
      else Except.error (PyError.valueError "Secret did not contain SecretString or SecretBinary")
  | Option.none =>
      Except.error (PyError.valueError "Secret did not contain SecretString or SecretBinary")

def getSecretPayload (parse : String → Option Py) (resp : SecretResponse) : Except PyError Py :=
  match resp.secretString with
  | some s =>
      if s != "" then
        match parse s with
        | some j => Except.ok j
        | Option.none => Except.ok (Py.dict [("secret", Py.str s)])
      else secretBinaryCase resp
  | Option.none => secretBinaryCase resp

/-- `SecretsManagerService.get_secret`.  `parse` is the `json.loads` oracle
(`Option.none` = `JSONDecodeError`); `vault` is the Secrets Manager client
(`Except.error` = `botocore ClientError`, re-raised unchanged). -/
def getSecret (parse : String → Option Py) (vault : String → Except String SecretResponse)
    (name : String) : Except PyError Py :=
  match vault name with
  | Except.error e => Except.error (PyError.clientError e)
  | Except.ok resp => getSecretPayload parse resp

/- ------------------------------------------------------------------ -/
/- Connection parameter records and *_params_from_secret               -/
/- ------------------------------------------------------------------ -/

/-- `MySQLConnectionParams` (line 74).  Fields hold `Py` values because
secrets may leave them `None`. -/
structure MySQLConnectionParams where
  host : Py
  port : Int := 3306
  database : Py := Py.none
  user : Py := Py.none
  password : Py := Py.none
  connect_timeout : Int := 10
  ssl : Py := Py.none

/-- `RedshiftConnectionParams` (line 157). -/
structure RedshiftConnectionParams where
  host : Py := Py.none
  port : Int := 5439
  database : Py := Py.none
  user : Py := Py.none
  password : Py := Py.none

/-- The `ssl` extraction of `_params_from_secret`: present and a dict, else `None`. -/
def sslFromSecret (fs : List (String × Py)) : Py :=
  match dLookup fs "ssl" with
  | some v => match v with | Py.dict g => Py.dict g | _ => Py.none
  | Option.none => Py.none

/-- Field extraction of `RdsMySQLService._params_from_secret` (lines 91-104)
once the secret is known to be a dict. -/
def mysqlParamsOfDict (fs : List (String × Py)) : Except PyError MySQLConnectionParams :=
  let host := pyOr (pyOr (dGet fs "host") (dGet fs "hostname")) (dGet fs "url")
  match pyInt (dGetD fs "port" (Py.int 3306)) with
  | Option.none => Except.error (PyError.typeError "int conversion of port failed")
  | some port =>
      let user := pyOr (dGet fs "username") (dGet fs "user")
      let password := dGet fs "password"
      let database := pyOr (pyOr (dGet fs "dbname") (dGet fs "database")) (dGet fs "db")
      Except.ok { host := host, port := port, database := database, user := user,
                  password := password, connect_timeout := 10, ssl := sslFromSecret fs }

/-- `RdsMySQLService._params_from_secret`: fetch the secret, then extract
fields (`.get` on a non-dict secret raises `AttributeError`). -/
def paramsFromSecretMySQL (parse : String → Option Py)
    (vault : String → Except String SecretResponse) (name : String) :
    Except PyError MySQLConnectionParams :=
  match getSecret parse vault name with
  | Except.error e => Except.error e
  | Except.ok (Py.dict fs) => mysqlParamsOfDict fs
  | Except.ok _ => Except.error (PyError.attributeError "secret object has no attribute get")

/-- Field extraction of `RedshiftService.params_from_secret` (lines 174-181). -/
def redshiftParamsOfDict (fs : List (String × Py)) : Except PyError RedshiftConnectionParams :=
  let host := pyOr (pyOr (dGet fs "host") (dGet fs "endpoint")) (dGet fs "hostname")
  match pyInt (dGetD fs "port" (Py.int 5439)) with
  | Option.none => Except.error (PyError.typeError "int conversion of port failed")
  | some port =>
      let database := pyOr (dGet fs "dbname") (dGet fs "database")
      let user := pyOr (dGet fs "username") (dGet fs "user")
      let password := dGet fs "password"
      Except.ok { host := host, port := port, database := database, user := user,
                  password := password }

/-- `RedshiftService.params_from_secret`. -/
def paramsFromSecretRedshift (parse : String → Option Py)
    (vault : String → Except String SecretResponse) (name : String) :
    Except PyError RedshiftConnectionParams :=
  match getSecret parse vault name with
  | Except.error e => Except.error e
  | Except.ok (Py.dict fs) => redshiftParamsOfDict fs
  | Except.ok _ => Except.error (PyError.attributeError "secret object has no attribute get")

/- ------------------------------------------------------------------ -/
/- connect / connect_psycopg2 up to the driver call                    -/
/- ------------------------------------------------------------------ -/

/-- Externally visible calls made while setting up a connection. -/
inductive ConnEvent where
  | vaultFetch (name : String)
  | mysqlConnectAttempt (p : MySQLConnectionParams)
  | redshiftConnectAttempt (p : RedshiftConnectionParams)

/-- The row-store default port (Python default argument `port: int = 3306`). -/
def mysqlDefaultPort : Int := 3306

/-- The warehouse default port (Python default argument `port: int = 5439`). -/
def redshiftDefaultPort : Int := 5439

/-- `RdsMySQLService.connect` (lines 106-139) up to the `pymysql.connect`
call: which external calls happen, and the first exception raised, if any.
`port = Option.none` models an omitted `port` keyword argument. -/
def mysqlConnectSetup (parse : String → Option Py)
    (vault : String → Except String SecretResponse)
    (secret_name : Option String) (host : Option String) (port : Option Int)
    (database : Option String) (user : Option String) (password : Option String)
    (ssl : Py) : List ConnEvent × Option PyError :=
  if optStrTruthy secret_name then
    let name := secret_name.getD ""
    match paramsFromSecretMySQL parse vault name with
    | Except.error e => ([ConnEvent.vaultFetch name], some e)
    | Except.ok params =>
        ([ConnEvent.vaultFetch name, ConnEvent.mysqlConnectAttempt params], Option.none)
  else if !(optStrTruthy host) || !(optStrTruthy user) then
    ([], some (PyError.valueError "host and user must be provided if secret_name is not used"))
  else
    ([ConnEvent.mysqlConnectAttempt
        { host := optPy host, port := port.getD mysqlDefaultPort, database := optPy database,
          user := optPy user, password := optPy password, connect_timeout := 10, ssl := ssl }],
     Option.none)

/-- `RedshiftService.connect_psycopg2` (lines 183-207) up to the
`psycopg2.connect` call. -/
def redshiftConnectSetup (parse : String → Option Py)
    (vault : String → Except String SecretResponse)
    (secret_name : Option String) (host : Option String) (port : Option Int)
    (database : Option String) (user : Option String) (password : Option String) :
    List ConnEvent × Option PyError :=
  if optStrTruthy secret_name then
    let name := secret_name.getD ""
    match paramsFromSecretRedshift parse vault name with
    | Except.error e => ([ConnEvent.vaultFetch name], some e)
    | Except.ok params =>
        ([ConnEvent.vaultFetch name, ConnEvent.redshiftConnectAttempt params], Option.none)
  else if !(optStrTruthy host) || !(optStrTruthy user) then
    ([], some (PyError.valueError "host and user must be provided if secret_name is not used"))
  else
    ([ConnEvent.redshiftConnectAttempt
        { host := optPy host, port := port.getD redshiftDefaultPort, database := optPy database,
          user := optPy user, password := optPy password }],
     Option.none)

/- ------------------------------------------------------------------ -/
/- The scoped yield / finally / close blocks (lines 141-147, 208-214)  -/
/- ------------------------------------------------------------------ -/

/-- A mock driver session recording how many times `close` was called. -/
structure Session where
  closeCalls : Nat

/-- The result of running a block of Python code: a value or an exception. -/
inductive Outcome (A : Type) where
  | ok (a : A)
  | exn (e : String)

/-- `conn.close()`: bumps the close counter; may itself raise. -/
def closeConn (closeFails : Bool) (s : Session) : Session × Outcome Unit :=
  (⟨s.closeCalls + 1⟩, if closeFails then Outcome.exn "close failed" else Outcome.ok ())

/-- The `try: yield conn  finally: try: conn.close() except: log` block of
`RdsMySQLService.connect`: run the caller's body on a fresh session, then
close once; a close failure is logged and swallowed, the body's outcome is
returned either way. -/
def mysqlWithConnection {A : Type} (closeFails : Bool)
    (body : Session → Session × Outcome A) : Session × Outcome A :=
  let conn : Session := ⟨0⟩
  let br := body conn
  let cr := closeConn closeFails br.1
  match cr.2 with
  | Outcome.ok _ => (cr.1, br.2)
  | Outcome.exn _ => (cr.1, br.2)

/-- The identical block of `RedshiftService.connect_psycopg2`. -/
def redshiftWithConnection {A : Type} (closeFails : Bool)
    (body : Session → Session × Outcome A) : Session × Outcome A :=
  let conn : Session := ⟨0⟩
  let br := body conn
  let cr := closeConn closeFails br.1
  match cr.2 with
  | Outcome.ok _ => (cr.1, br.2)
  | Outcome.exn _ => (cr.1, br.2)

/- ------------------------------------------------------------------ -/
/- RedshiftService.execute_query_data_api (lines 222-314)              -/
/- ------------------------------------------------------------------ -/

/-- A result cell: the typed tagged union, as an ordered Python dict. -/
abbrev Cell := List (String × Py)

/-- A decoded row: ordered mapping from column name to decoded value. -/
abbrev Row := List (String × Py)

/-- One `get_statement_result` page: ordered column names from
`ColumnMetadata`, and `Records` (each record a list of cells). -/
structure ResultPage where
  columns : List String
  records : List (List Cell)

/-- The oracle for the `redshift-data` boto3 client: the response to
`execute_statement` (`Except.error` = `ClientError`), the `(Status, Error)`
pair returned by the k-th `describe_statement` call, and the
`get_statement_result` response. -/
structure DataApiBackend where
  execResult : Except String String
  describe : Nat → Option String × Option String
  fetchResult : Except String ResultPage

/-- `status == "FINISHED"` (a missing `Status` key compares unequal). -/
def isFinished (s : Option String) : Bool := s == some "FINISHED"

/-- `status in ("ABORTED", "FAILED", "TIMED_OUT")`. -/
def isFailureStatus (s : Option String) : Bool :=
  s == some "ABORTED" || s == some "FAILED" || s == some "TIMED_OUT"

/-- Outcome of the `while waited < timeout` poll loop, carrying the number
of `describe_statement` calls that were made. -/
inductive PollOutcome where
  | finished (polls : Nat)
  | failed (polls : Nat) (status : Option String) (errmsg : Option String)
  | timedOutLocal (polls : Nat)

/-- The poll loop, fuelled.  `waited` and the accumulation by
`poll_interval` mirror the source; the fuel only bounds the recursion and
`Option.none` stands for nontermination (a non-positive `poll_interval`
makes the Python loop spin forever). -/
def pollAux (d : Nat → Option String × Option String) (interval t : ℚ) :
    Nat → ℚ → Nat → Option PollOutcome
  | 0, waited, k =>
      if waited < t then Option.none else some (PollOutcome.timedOutLocal k)
  | fuel + 1, waited, k =>
      if waited < t then
        let st := (d k).1
        if isFinished st then some (PollOutcome.finished (k + 1))
        else if isFailureStatus st then some (PollOutcome.failed (k + 1) st (d k).2)
        else pollAux d interval t fuel (waited + interval) (k + 1)
      else some (PollOutcome.timedOutLocal k)

/-- Fuel sufficient for the whole loop whenever `0 < interval`. -/
def pollFuel (interval t : ℚ) : Nat :=
  if 0 < interval then (Int.toNat ⌈t / interval⌉) + 1 else 0

/-- The `while waited < timeout` loop of `execute_query_data_api`. -/
def pollStatuses (d : Nat → Option String × Option String) (interval t : ℚ) :
    Option PollOutcome :=
  pollAux d interval t (pollFuel interval t) 0 0

/-- Cell decoding (lines 293-310): tag checks in source order, the
truthy-`isNull` null marker, and the first-present-key fallback. -/
def fallbackFirst : Cell → Py
  | [] => Py.none
  | (_, v) :: _ => v

def decodeCell (item : Cell) : Py :=
  if item.isEmpty then Py.none
  else
    match dLookup item "stringValue" with
    | some v => v
    | Option.none =>
      match dLookup item "longValue" with
      | some v => v
      | Option.none =>
        match dLookup item "doubleValue" with
        | some v => v
        | Option.none =>
          match dLookup item "booleanValue" with
          | some v => v
          | Option.none =>
            match dLookup item "isNull" with
            | some v => if v.truthy then Py.none else fallbackFirst item
            | Option.none => fallbackFirst item

/-- `for col, item in zip(columns, r): record[col] = value` (lines 291-312). -/
def decodeRecord (columns : List String) (r : List Cell) : Row :=
  (columns.zip r).foldl (fun record cv => dictInsert record cv.1 (decodeCell cv.2)) []

/-- The `get_statement_result` call plus decoding (lines 281-314). -/
def fetchAndDecode (b : DataApiBackend) : Except PyError (List Row) :=
  match b.fetchResult with
  | Except.error e => Except.error (PyError.clientError e)
  | Except.ok page => Except.ok (page.records.map (fun r => decodeRecord page.columns r))

/-- Externally visible calls made by `execute_query_data_api`. -/
inductive ApiEvent where
  | execCall (kwargs : List (String × Py))
  | describeCall (id : String)
  | getResultCall (id : String)

/-- The `kwargs` dict built on lines 246-254. -/
def buildKwargs (sql database : String) (ci wg du sa : Option String) :
    List (String × Py) :=
  let k0 := [("Sql", Py.str sql), ("Database", Py.str database)]
  let k1 := if optStrTruthy ci then k0 ++ [("ClusterIdentifier", optPy ci)] else k0
  let k2 := if optStrTruthy wg then k1 ++ [("WorkgroupName", optPy wg)] else k1
  let k3 := if optStrTruthy du then k2 ++ [("DbUser", optPy du)] else k2
  if optStrTruthy sa then k3 ++ [("SecretArn", optPy sa)] else k3

def optionStr : Option String → String
  | some s => s
  | Option.none => "None"

/-- A complete run of `execute_query_data_api`: the calls it made and its
result (`Option.none` = the poll loop never terminates). -/
structure ApiRun where
  events : List ApiEvent
  result : Option (Except PyError (List Row))

def executeQueryDataApi (b : DataApiBackend) (sql database : String)
    (cluster_identifier workgroup_name db_user secret_arn : Option String)
    (wait : Bool) (poll_interval timeout : ℚ) : ApiRun :=
  if !(optStrTruthy cluster_identifier || optStrTruthy workgroup_name) then
    { events := [],
      result := some (Except.error
        (PyError.valueError "Either cluster_identifier or workgroup_name must be provided")) }
  else
    let kwargs := buildKwargs sql database cluster_identifier workgroup_name db_user secret_arn
    match b.execResult with
    | Except.error e =>
        { events := [ApiEvent.execCall kwargs],
          result := some (Except.error (PyError.clientError e)) }
    | Except.ok sid =>
        if !wait then { events := [ApiEvent.execCall kwargs], result := some (Except.ok []) }
        else
          match pollStatuses b.describe poll_interval timeout with
          | Option.none => { events := [ApiEvent.execCall kwargs], result := Option.none }
          | some (PollOutcome.failed n st m) =>
              { events := ApiEvent.execCall kwargs :: List.replicate n (ApiEvent.describeCall sid),
                result := some (Except.error (PyError.runtimeError
                  ("Redshift Data API statement " ++ sid ++ " failed with status "
                    ++ optionStr st ++ ": " ++ optionStr m))) }
          | some (PollOutcome.finished n) =>
              { events := ApiEvent.execCall kwargs ::
                  (List.replicate n (ApiEvent.describeCall sid) ++ [ApiEvent.getResultCall sid]),
                result := some (fetchAndDecode b) }
          | some (PollOutcome.timedOutLocal n) =>
              { events := ApiEvent.execCall kwargs ::
                  (List.replicate n (ApiEvent.describeCall sid) ++ [ApiEvent.getResultCall sid]),
                result := some (fetchAndDecode b) }

/-- The number of loop iterations (= `describe_statement` calls) the poll
loop performs before exiting on `waited >= timeout`, assuming no terminal
status ever shows up.  Proof device matching the recursion of `pollAux`. -/
def pollCount (interval t : ℚ) : Nat → ℚ → Nat
  | 0, _ => 0
  | fuel + 1, w => if w < t then pollCount interval t fuel (w + interval) + 1 else 0

/- ------------------------------------------------------------------ -/
/- Concrete oracles used by witnesses and counterexamples              -/
/- ------------------------------------------------------------------ -/

/-- A JSON text (braces escaped) for a well-formed database secret. -/
def jsonSecretA : String :=
  "\x7b\"host\": \"h\", \"username\": \"u\", \"password\": \"p\"\x7d"

/-- A concrete `json.loads` oracle: parses the three JSON texts the
witnesses use, fails on everything else (in particular on `""`). -/
def parse0 : String → Option Py := fun s =>
  if s = jsonSecretA then
    some (Py.dict [("host", Py.str "h"), ("username", Py.str "u"), ("password", Py.str "p")])
  else if s = "\x7b\x7d" then some (Py.dict [])
  else if s = "[1]" then some (Py.list [Py.int 1])
  else Option.none

/-- A concrete Secrets Manager oracle. -/
def vault0 : String → Except String SecretResponse := fun name =>
  if name = "s1" then Except.ok { secretString := some jsonSecretA }
  else if name = "s2" then Except.ok { secretString := some "\x7b\x7d" }
  else if name = "s3" then Except.ok { secretString := some "[1]" }
  else if name = "s4" then Except.ok { secretString := some "" }
  else Except.error "ResourceNotFoundException"

/-- A Data API backend whose statement status never becomes terminal. -/
def stuckBackend : DataApiBackend where
  execResult := Except.ok "sid-1"
  describe := fun _ => (some "STARTED", Option.none)
  fetchResult := Except.error "query still running"

/-- A Data API backend that reports `FINISHED` on the first poll and
returns one row `(test, 1)`. -/
def okBackend : DataApiBackend where
  execResult := Except.ok "sid-2"
  describe := fun _ => (some "FINISHED", Option.none)
  fetchResult := Except.ok { columns := ["test"], records := [[[("longValue", Py.int 1)]]] }

/- ------------------------------------------------------------------ -/
/- Helper lemmas                                                       -/
/- ------------------------------------------------------------------ -/

/-- When no poll ever sees a terminal status, the loop runs until
`waited >= timeout` and exits normally (given enough fuel). -/
theorem pollAux_nonterminal (d : Nat → Option String × Option String) (interval t : ℚ)
    (h : ∀ k, isFinished (d k).1 = false ∧ isFailureStatus (d k).1 = false) :
    ∀ (fuel : Nat) (w : ℚ) (k : Nat), ¬ (w + (fuel : ℚ) * interval < t) →
      pollAux d interval t fuel w k
        = some (PollOutcome.timedOutLocal (k + pollCount interval t fuel w)) := by
  intro fuel
  induction fuel with
  | zero =>
      intro w k hw
      simp only [Nat.cast_zero, zero_mul, add_zero] at hw
      simp [pollAux, pollCount, hw]
  | succ fuel ih =>
      intro w k hw
      by_cases hwt : w < t
      · have hrec : ¬ (w + interval + (fuel : ℚ) * interval < t) := by
          intro hcon
          apply hw
          push_cast
          linarith
        simp only [pollAux, hwt, if_true, (h k).1, (h k).2, Bool.false_eq_true, if_false]
        rw [ih (w + interval) (k + 1) hrec]
        simp only [pollCount, hwt, if_true, Option.some.injEq, PollOutcome.timedOutLocal.injEq]
        omega
      · simp [pollAux, pollCount, hwt]

/-- With `poll_interval = 0.1` and `timeout = 0.5` a never-terminal
statement is described exactly 5 times before the loop gives up. -/
theorem pollStatuses_stuck (d : Nat → Option String × Option String)
    (h : ∀ k, isFinished (d k).1 = false ∧ isFailureStatus (d k).1 = false) :
    pollStatuses d (1/10) (1/2) = some (PollOutcome.timedOutLocal 5) := by
  have hfuel : pollFuel (1/10) (1/2) = 6 := by norm_num [pollFuel]; decide
  have hcount : pollCount (1/10) (1/2) 6 0 = 5 := by norm_num [pollCount]
  unfold pollStatuses
  rw [hfuel, pollAux_nonterminal d _ _ h 6 0 0 (by norm_num), hcount]

/-- If a key is found, the cell dict is nonempty. -/
theorem dLookup_ne_nil {item : List (String × Py)} {k : String} {v : Py}
    (h : dLookup item k = some v) : item.isEmpty = false := by
  cases item with
  | nil => simp [dLookup] at h
  | cons a l => rfl

/-- Claim C2: `fetch` decodes each result cell by checking the typed tags in
the fixed order stringValue, longValue, doubleValue, booleanValue, then a
truthy isNull (giving null); when none of these recognized tags applies the
value of the first present tag is used instead of failing; and the page with
columns [a, b] and record [stringValue x, isNull true] decodes to
[(a, x), (b, null)]. -/
theorem C2_cell_decoding_order :
    (∀ (item : Cell) (v : Py), dLookup item "stringValue" = some v → decodeCell item = v)
  ∧ (∀ (item : Cell) (v : Py), dLookup item "stringValue" = Option.none →
        dLookup item "longValue" = some v → decodeCell item = v)
  ∧ (∀ (item : Cell) (v : Py), dLookup item "stringValue" = Option.none →
        dLookup item "longValue" = Option.none →
        dLookup item "doubleValue" = some v → decodeCell item = v)
  ∧ (∀ (item : Cell) (v : Py), dLookup item "stringValue" = Option.none →
        dLookup item "longValue" = Option.none →
        dLookup item "doubleValue" = Option.none →
        dLookup item "booleanValue" = some v → decodeCell item = v)
  ∧ (∀ (item : Cell) (v : Py), dLookup item "stringValue" = Option.none →
        dLookup item "longValue" = Option.none →
        dLookup item "doubleValue" = Option.none →
        dLookup item "booleanValue" = Option.none →
        dLookup item "isNull" = some v → v.truthy = true → decodeCell item = Py.none)
  ∧ (∀ (k0 : String) (v0 : Py) (rest : Cell),
        dLookup ((k0, v0) :: rest) "stringValue" = Option.none →
        dLookup ((k0, v0) :: rest) "longValue" = Option.none →
        dLookup ((k0, v0) :: rest) "doubleValue" = Option.none →
        dLookup ((k0, v0) :: rest) "booleanValue" = Option.none →
        dLookup ((k0, v0) :: rest) "isNull" = Option.none →
        decodeCell ((k0, v0) :: rest) = v0)
  ∧ decodeRecord ["a", "b"] [[("stringValue", Py.str "x")], [("isNull", Py.bool true)]]
      = [("a", Py.str "x"), ("b", Py.none)] := by
  refine ⟨?_, ?_, ?_, ?_, ?_, ?_, rfl⟩
  · intro item v h1
    simp [decodeCell, dLookup_ne_nil h1, h1]
  · intro item v h1 h2
    simp [decodeCell, dLookup_ne_nil h2, h1, h2]
  · intro item v h1 h2 h3
    simp [decodeCell, dLookup_ne_nil h3, h1, h2, h3]
  · intro item v h1 h2 h3 h4
    simp [decodeCell, dLookup_ne_nil h4, h1, h2, h3, h4]
  · intro item v h1 h2 h3 h4 h5 h6
    simp [decodeCell, dLookup_ne_nil h5, h1, h2, h3, h4, h5, h6]
  · intro k0 v0 rest h1 h2 h3 h4 h5
    simp [decodeCell, h1, h2, h3, h4, h5, fallbackFirst]

/-- Witness for C2: the fallback branch applied to a cell whose only tag is
unrecognized. -/
theorem C2_witness : decodeCell [("weirdTag", Py.int 7)] = Py.int 7 :=
  C2_cell_decoding_order.2.2.2.2.2.1 "weirdTag" (Py.int 7) [] rfl rfl rfl rfl rfl

/-- Claim C8: a cell whose only present tag is a falsy `isNull` is decoded by
the first-present-tag fallback (so isNull false decodes to the boolean false),
and an empty (falsy) cell object decodes to null. -/
theorem C8_falsy_isnull_fallback :
    (∀ v : Py, v.truthy = false → decodeCell [("isNull", v)] = v)
  ∧ decodeCell [] = Py.none := by
  constructor
  · intro v hv
    simp [decodeCell, dLookup, hv, fallbackFirst]
  · rfl

/-- Witness for C8 at the concrete cell with isNull false. -/
theorem C8_witness :
    (Py.bool false).truthy = false ∧ decodeCell [("isNull", Py.bool false)] = Py.bool false :=
  ⟨rfl, C8_falsy_isnull_fallback.1 (Py.bool false) rfl⟩

/-- Claim C9: whenever the vault response's SecretString parses as valid JSON
(the `json.loads` oracle succeeds; real JSON never parses the empty string),
`get_secret` returns the parse result verbatim, with no wrapping, also when the
result is not a key-value mapping. -/
theorem C9_get_secret_verbatim_json (parse : String → Option Py) (vault : String → Except String SecretResponse)
    (name : String) (resp : SecretResponse) (s : String) (j : Py)
    (hjson : parse "" = Option.none)
    (hv : vault name = Except.ok resp) (hs : resp.secretString = some s)
    (hp : parse s = some j) :
    getSecret parse vault name = Except.ok j := by
  have hne : s ≠ "" := by
    intro hcon
    rw [hcon, hjson] at hp
    cases hp
  have hbne : (s != "") = true := by simpa using hne
  simp [getSecret, hv, getSecretPayload, hs, hbne, hp]

/-- Witness for C9: a SecretString holding a JSON array is returned as-is. -/
theorem C9_witness : getSecret parse0 vault0 "s3" = Except.ok (Py.list [Py.int 1]) :=
  C9_get_secret_verbatim_json parse0 vault0 "s3" { secretString := some "[1]" } "[1]" (Py.list [Py.int 1])
    rfl rfl rfl rfl

/-- Claim C10: a vault response whose SecretString is the empty string and
which carries no SecretBinary is treated as having no payload: `get_secret`
raises the missing-payload ValueError instead of returning a wrapped empty
string. -/
theorem C10_empty_secret_string_payload_missing (parse : String → Option Py) (vault : String → Except String SecretResponse)
    (name : String) (resp : SecretResponse)
    (hv : vault name = Except.ok resp) (hs : resp.secretString = some "")
    (hb : resp.secretBinary = Option.none) :
    getSecret parse vault name
      = Except.error (PyError.valueError "Secret did not contain SecretString or SecretBinary") := by
  simp [getSecret, hv, getSecretPayload, hs, secretBinaryCase, hb]

/-- Witness for C10 at a concrete vault response. -/
theorem C10_witness :
    getSecret parse0 vault0 "s4"
      = Except.error (PyError.valueError "Secret did not contain SecretString or SecretBinary") :=
  C10_empty_secret_string_payload_missing parse0 vault0 "s4" { secretString := some "" } rfl rfl rfl

/-- Claim C4 (amended): supplying neither a secret name nor explicit
host/user to `RdsMySQLService.connect` or `RedshiftService.connect_psycopg2`
raises ValueError before any vault fetch or connection attempt; but supplying
BOTH a secret name and explicit parameters is not rejected: the secret path is
taken and the vault is contacted (first external call is the vault fetch). -/
theorem C4_connect_validation :
    (∀ (parse : String → Option Py) (vault : String → Except String SecretResponse)
        (port : Option Int) (db pw : Option String) (ssl : Py),
        mysqlConnectSetup parse vault Option.none Option.none port db Option.none pw ssl
          = ([], some (PyError.valueError
              "host and user must be provided if secret_name is not used")))
  ∧ (∀ (parse : String → Option Py) (vault : String → Except String SecretResponse)
        (port : Option Int) (db pw : Option String),
        redshiftConnectSetup parse vault Option.none Option.none port db Option.none pw
          = ([], some (PyError.valueError
              "host and user must be provided if secret_name is not used")))
  ∧ (∀ (parse : String → Option Py) (vault : String → Except String SecretResponse)
        (name h u : String) (port : Option Int) (db pw : Option String) (ssl : Py),
        name ≠ "" →
        (mysqlConnectSetup parse vault (some name) (some h) port db (some u) pw ssl).1.head?
          = some (ConnEvent.vaultFetch name))
  ∧ (∀ (parse : String → Option Py) (vault : String → Except String SecretResponse)
        (name h u : String) (port : Option Int) (db pw : Option String),
        name ≠ "" →
        (redshiftConnectSetup parse vault (some name) (some h) port db (some u) pw).1.head?
          = some (ConnEvent.vaultFetch name)) := by
  refine ⟨?_, ?_, ?_, ?_⟩
  · intro parse vault port db pw ssl
    simp [mysqlConnectSetup, optStrTruthy]
  · intro parse vault port db pw
    simp [redshiftConnectSetup, optStrTruthy]
  · intro parse vault name h u port db pw ssl hname
    simp only [mysqlConnectSetup, optStrTruthy, bne_iff_ne, ne_eq, hname,
      not_false_eq_true, if_true, Option.getD_some]
    rcases paramsFromSecretMySQL parse vault name with e | p <;> simp [hname]
  · intro parse vault name h u port db pw hname
    simp only [redshiftConnectSetup, optStrTruthy, bne_iff_ne, ne_eq, hname,
      not_false_eq_true, if_true, Option.getD_some]
    rcases paramsFromSecretRedshift parse vault name with e | p <;> simp [hname]

/-- Claim C6: with valid explicit parameters (non-empty host and user) the
connection attempt uses exactly the supplied values, an omitted port being
filled with the backend default (3306 row store, 5439 warehouse), and the
vault is never contacted (the event list holds only the connect attempt). -/
theorem C6_explicit_params_passthrough (parse : String → Option Py) (vault : String → Except String SecretResponse)
    (h u : String) (port : Option Int) (db pw : Option String) (ssl : Py)
    (hh : h ≠ "") (hu : u ≠ "") :
    mysqlConnectSetup parse vault Option.none (some h) port db (some u) pw ssl
      = ([ConnEvent.mysqlConnectAttempt
            { host := Py.str h, port := port.getD mysqlDefaultPort, database := optPy db,
              user := Py.str u, password := optPy pw, connect_timeout := 10, ssl := ssl }],
         Option.none)
  ∧ redshiftConnectSetup parse vault Option.none (some h) port db (some u) pw
      = ([ConnEvent.redshiftConnectAttempt
            { host := Py.str h, port := port.getD redshiftDefaultPort, database := optPy db,
              user := Py.str u, password := optPy pw }],
         Option.none) := by
  constructor
  · simp [mysqlConnectSetup, optStrTruthy, hh, hu, optPy]
  · simp [redshiftConnectSetup, optStrTruthy, hh, hu, optPy]

/-- Witness for C6 at concrete explicit parameters with the port omitted. -/
theorem C6_witness :
    mysqlConnectSetup parse0 vault0 Option.none (some "db.example.com") Option.none
        (some "appdb") (some "admin") (some "pw") Py.none
      = ([ConnEvent.mysqlConnectAttempt
            { host := Py.str "db.example.com", port := 3306, database := Py.str "appdb",
              user := Py.str "admin", password := Py.str "pw", connect_timeout := 10,
              ssl := Py.none }], Option.none)
  ∧ redshiftConnectSetup parse0 vault0 Option.none (some "db.example.com") Option.none
        (some "appdb") (some "admin") (some "pw")
      = ([ConnEvent.redshiftConnectAttempt
            { host := Py.str "db.example.com", port := 5439, database := Py.str "appdb",
              user := Py.str "admin", password := Py.str "pw" }], Option.none) :=
  C6_explicit_params_passthrough parse0 vault0 "db.example.com" "admin" Option.none (some "appdb") (some "pw")
    Py.none (by decide) (by decide)

/-- Claim C7: a session opened by the scoped connect blocks is closed exactly
once on every exit path - whether the body returns normally or raises - and a
failure inside close is swallowed, never replacing the body's outcome. -/
theorem C7_scoped_close_exactly_once {A : Type} (closeFails : Bool) (body : Session → Session × Outcome A)
    (s1 : Session) (r : Outcome A)
    (hbody : body ⟨0⟩ = (s1, r)) (hnoclose : s1.closeCalls = 0) :
    ((mysqlWithConnection closeFails body).1.closeCalls = 1
      ∧ (mysqlWithConnection closeFails body).2 = r)
  ∧ ((redshiftWithConnection closeFails body).1.closeCalls = 1
      ∧ (redshiftWithConnection closeFails body).2 = r) := by
  cases closeFails <;>
    simp [mysqlWithConnection, redshiftWithConnection, closeConn, hbody, hnoclose]

/-- Witness for C7: a raising body together with a failing close still yields
one close call and the body's exception. -/
theorem C7_witness :
    ((mysqlWithConnection true (fun s => (s, (Outcome.exn "boom" : Outcome Unit)))).1.closeCalls = 1
      ∧ (mysqlWithConnection true (fun s => (s, (Outcome.exn "boom" : Outcome Unit)))).2
          = Outcome.exn "boom")
  ∧ ((redshiftWithConnection true (fun s => (s, (Outcome.exn "boom" : Outcome Unit)))).1.closeCalls = 1
      ∧ (redshiftWithConnection true (fun s => (s, (Outcome.exn "boom" : Outcome Unit)))).2
          = Outcome.exn "boom") :=
  C7_scoped_close_exactly_once true (fun s => (s, (Outcome.exn "boom" : Outcome Unit))) ⟨0⟩ (Outcome.exn "boom") rfl rfl

/-- Claim C5 (amended): a secret missing every host fallback key (host,
hostname, endpoint, url) and every user fallback key (username, user) does NOT
fail resolution: `_params_from_secret` / `params_from_secret` return parameter
records whose host and user are None, and the connect context managers proceed
to a connection attempt with them; no IncompleteCredential error exists in the
code. -/
theorem C5_missing_fields_resolve_to_none (parse : String → Option Py) (vault : String → Except String SecretResponse)
    (name : String) (fs : List (String × Py))
    (hname : name ≠ "")
    (hsec : getSecret parse vault name = Except.ok (Py.dict fs))
    (hhost : dLookup fs "host" = Option.none) (hhn : dLookup fs "hostname" = Option.none)
    (hurl : dLookup fs "url" = Option.none) (hep : dLookup fs "endpoint" = Option.none)
    (huser : dLookup fs "username" = Option.none) (hu2 : dLookup fs "user" = Option.none)
    (hport : dLookup fs "port" = Option.none) :
    (∃ p : MySQLConnectionParams,
        paramsFromSecretMySQL parse vault name = Except.ok p
        ∧ p.host = Py.none ∧ p.user = Py.none
        ∧ mysqlConnectSetup parse vault (some name) Option.none Option.none Option.none
            Option.none Option.none Py.none
            = ([ConnEvent.vaultFetch name, ConnEvent.mysqlConnectAttempt p], Option.none))
  ∧ (∃ p : RedshiftConnectionParams,
        paramsFromSecretRedshift parse vault name = Except.ok p
        ∧ p.host = Py.none ∧ p.user = Py.none
        ∧ redshiftConnectSetup parse vault (some name) Option.none Option.none Option.none
            Option.none Option.none
            = ([ConnEvent.vaultFetch name, ConnEvent.redshiftConnectAttempt p], Option.none)) := by
  have hm : mysqlParamsOfDict fs = Except.ok
      { host := Py.none, port := 3306,
        database := pyOr (pyOr (dGet fs "dbname") (dGet fs "database")) (dGet fs "db"),
        user := Py.none, password := dGet fs "password", connect_timeout := 10,
        ssl := sslFromSecret fs } := by
    simp [mysqlParamsOfDict, dGet, dGetD, hhost, hhn, hurl, huser, hu2, hport,
      pyOr, Py.truthy, pyInt]
  have hr : redshiftParamsOfDict fs = Except.ok
      { host := Py.none, port := 5439,
        database := pyOr (dGet fs "dbname") (dGet fs "database"),
        user := Py.none, password := dGet fs "password" } := by
    simp [redshiftParamsOfDict, dGet, dGetD, hhost, hhn, hep, huser, hu2, hport,
      pyOr, Py.truthy, pyInt]
  constructor
  · refine ⟨⟨Py.none, 3306,
        pyOr (pyOr (dGet fs "dbname") (dGet fs "database")) (dGet fs "db"),
        Py.none, dGet fs "password", 10, sslFromSecret fs⟩, ?_, rfl, rfl, ?_⟩
    · simp [paramsFromSecretMySQL, hsec, hm]
    · simp [mysqlConnectSetup, optStrTruthy, hname, paramsFromSecretMySQL, hsec, hm]
  · refine ⟨⟨Py.none, 5439,
        pyOr (dGet fs "dbname") (dGet fs "database"),
        Py.none, dGet fs "password"⟩, ?_, rfl, rfl, ?_⟩
    · simp [paramsFromSecretRedshift, hsec, hr]
    · simp [redshiftConnectSetup, optStrTruthy, hname, paramsFromSecretRedshift, hsec, hr]

/-- Witness for C5 at the concrete empty secret "s2". -/
theorem C5_witness :
    (∃ p : MySQLConnectionParams,
        paramsFromSecretMySQL parse0 vault0 "s2" = Except.ok p
        ∧ p.host = Py.none ∧ p.user = Py.none
        ∧ mysqlConnectSetup parse0 vault0 (some "s2") Option.none Option.none Option.none
            Option.none Option.none Py.none
            = ([ConnEvent.vaultFetch "s2", ConnEvent.mysqlConnectAttempt p], Option.none))
  ∧ (∃ p : RedshiftConnectionParams,
        paramsFromSecretRedshift parse0 vault0 "s2" = Except.ok p
        ∧ p.host = Py.none ∧ p.user = Py.none
        ∧ redshiftConnectSetup parse0 vault0 (some "s2") Option.none Option.none Option.none
            Option.none Option.none
            = ([ConnEvent.vaultFetch "s2", ConnEvent.redshiftConnectAttempt p], Option.none)) :=
  C5_missing_fields_resolve_to_none parse0 vault0 "s2" [] (by decide) rfl rfl rfl rfl rfl rfl rfl rfl

/-- Counterexample for C5 as stated: resolving the empty secret "s2" succeeds
(host/user None) and the service proceeds to a connection attempt instead of
failing with IncompleteCredential. -/
theorem C5_counterexample :
    paramsFromSecretMySQL parse0 vault0 "s2"
      = Except.ok { host := Py.none, port := 3306, database := Py.none, user := Py.none,
                    password := Py.none, connect_timeout := 10, ssl := Py.none }
  ∧ mysqlConnectSetup parse0 vault0 (some "s2") Option.none Option.none Option.none
        Option.none Option.none Py.none
      = ([ConnEvent.vaultFetch "s2",
          ConnEvent.mysqlConnectAttempt
            { host := Py.none, port := 3306, database := Py.none, user := Py.none,
              password := Py.none, connect_timeout := 10, ssl := Py.none }], Option.none) :=
  ⟨rfl, rfl⟩

/-- Counterexample for C4 as stated: with BOTH a secret name and explicit
parameters supplied, no ValidationError is raised and the vault IS fetched. -/
theorem C4_counterexample :
    ConnEvent.vaultFetch "s1" ∈ (mysqlConnectSetup parse0 vault0 (some "s1") (some "hx")
        (some 1234) Option.none (some "ux") Option.none Py.none).1
  ∧ (mysqlConnectSetup parse0 vault0 (some "s1") (some "hx") (some 1234) Option.none
        (some "ux") Option.none Py.none).2 = Option.none := by
  have hrun : mysqlConnectSetup parse0 vault0 (some "s1") (some "hx") (some 1234) Option.none
      (some "ux") Option.none Py.none
      = ([ConnEvent.vaultFetch "s1",
          ConnEvent.mysqlConnectAttempt
            { host := Py.str "h", port := 3306, database := Py.none, user := Py.str "u",
              password := Py.str "p", connect_timeout := 10, ssl := Py.none }],
         Option.none) := rfl
  constructor
  · simp [hrun]
  · simp [hrun]

/-- Witness for C4 at concrete oracles: the neither case errors with no
events, and the both case starts with a vault fetch. -/
theorem C4_witness :
    mysqlConnectSetup parse0 vault0 Option.none Option.none Option.none Option.none
        Option.none Option.none Py.none
      = ([], some (PyError.valueError
          "host and user must be provided if secret_name is not used"))
  ∧ (mysqlConnectSetup parse0 vault0 (some "s1") (some "hx") Option.none Option.none
        (some "ux") Option.none Py.none).1.head? = some (ConnEvent.vaultFetch "s1") :=
  ⟨C4_connect_validation.1 parse0 vault0 Option.none Option.none Option.none Py.none,
   C4_connect_validation.2.2.1 parse0 vault0 "s1" "hx" "ux" Option.none Option.none Option.none Py.none
     (by decide)⟩

/-- Claim C3 (amended): supplying neither cluster_identifier nor
workgroup_name raises ValueError before any statement is submitted; but
supplying BOTH is accepted: the statement is submitted (first event is the
execute call) with both identifiers present in the request. -/
theorem C3_target_validation :
    (∀ (b : DataApiBackend) (sql db : String) (ci wg du sa : Option String)
        (w : Bool) (interval t : ℚ),
        optStrTruthy ci = false → optStrTruthy wg = false →
        executeQueryDataApi b sql db ci wg du sa w interval t
          = { events := [],
              result := some (Except.error (PyError.valueError
                "Either cluster_identifier or workgroup_name must be provided")) })
  ∧ (∀ (b : DataApiBackend) (sql db ci wg : String) (du sa : Option String)
        (w : Bool) (interval t : ℚ), ci ≠ "" → wg ≠ "" →
        (executeQueryDataApi b sql db (some ci) (some wg) du sa w interval t).events.head?
            = some (ApiEvent.execCall (buildKwargs sql db (some ci) (some wg) du sa))
        ∧ ("ClusterIdentifier", Py.str ci) ∈ buildKwargs sql db (some ci) (some wg) du sa
        ∧ ("WorkgroupName", Py.str wg) ∈ buildKwargs sql db (some ci) (some wg) du sa) := by
  constructor
  · intro b sql db ci wg du sa w interval t h1 h2
    simp [executeQueryDataApi, h1, h2]
  · intro b sql db ci wg du sa w interval t hci hwg
    refine ⟨?_, ?_, ?_⟩
    · simp only [executeQueryDataApi, optStrTruthy, hci, hwg]
      have hcib : (ci == "") = false := by simpa using hci
      simp only [hcib, Bool.not_false, Bool.true_or, Bool.not_true, Bool.false_eq_true,
        if_false]
      rcases b.execResult with e | sid
      · simp
      · cases w
        · simp
        · rcases hpoll : pollStatuses b.describe interval t with _ | po
          · simp [hpoll]
          · cases po <;> simp [hpoll]
    · simp [buildKwargs, optStrTruthy, hci, hwg, optPy]
      split_ifs <;> simp
    · simp [buildKwargs, optStrTruthy, hci, hwg, optPy]
      split_ifs <;> simp

/-- Counterexample for C3 as stated: with both cluster_identifier and
workgroup_name supplied the statement IS submitted (the execute call with both
identifiers is among the events) and the call completes without a validation
error. -/
theorem C3_counterexample :
    ApiEvent.execCall [("Sql", Py.str "SELECT 1 AS test"), ("Database", Py.str "dev"),
        ("ClusterIdentifier", Py.str "c"), ("WorkgroupName", Py.str "w")]
      ∈ (executeQueryDataApi okBackend "SELECT 1 AS test" "dev" (some "c") (some "w")
          Option.none Option.none true 1 1).events
  ∧ (executeQueryDataApi okBackend "SELECT 1 AS test" "dev" (some "c") (some "w")
        Option.none Option.none true 1 1).result
      = some (Except.ok [[("test", Py.int 1)]]) := by
  have hfuel : pollFuel 1 1 = 2 := by norm_num [pollFuel]
  have hpoll : pollStatuses okBackend.describe 1 1 = some (PollOutcome.finished 1) := by
    unfold pollStatuses
    rw [hfuel]
    norm_num [pollAux, okBackend, isFinished]
  have hrun : executeQueryDataApi okBackend "SELECT 1 AS test" "dev" (some "c") (some "w")
      Option.none Option.none true 1 1
      = { events := [ApiEvent.execCall [("Sql", Py.str "SELECT 1 AS test"),
            ("Database", Py.str "dev"), ("ClusterIdentifier", Py.str "c"),
            ("WorkgroupName", Py.str "w")],
            ApiEvent.describeCall "sid-2", ApiEvent.getResultCall "sid-2"],
          result := some (Except.ok [[("test", Py.int 1)]]) } := by
    have hexec : okBackend.execResult = Except.ok "sid-2" := rfl
    have hfetch : fetchAndDecode okBackend = Except.ok [[("test", Py.int 1)]] := rfl
    simp [executeQueryDataApi, optStrTruthy, hexec, hpoll, buildKwargs, optPy, hfetch]
  constructor
  · simp [hrun]
  · simp [hrun]

/-- Witness for C3: the neither case errors with no submission, and the both
case submits first. -/
theorem C3_witness :
    executeQueryDataApi okBackend "q" "dev" Option.none Option.none Option.none Option.none
        true 1 1
      = { events := [],
          result := some (Except.error (PyError.valueError
            "Either cluster_identifier or workgroup_name must be provided")) }
  ∧ (executeQueryDataApi okBackend "q" "dev" (some "c") (some "w") Option.none Option.none
        true 1 1).events.head?
      = some (ApiEvent.execCall (buildKwargs "q" "dev" (some "c") (some "w")
          Option.none Option.none)) :=
  ⟨C3_target_validation.1 okBackend "q" "dev" Option.none Option.none Option.none Option.none true 1 1
      rfl rfl,
   (C3_target_validation.2 okBackend "q" "dev" "c" "w" Option.none Option.none true 1 1
      (by decide) (by decide)).1⟩

/-- Claim C1 (amended): when no `describe_statement` response is ever
terminal, the poll loop exits once accumulated waiting reaches `timeout` and
the method then CALLS `get_statement_result` (no local-timeout error is
raised; the result is whatever the fetch produces); with poll_interval 0.1 and
timeout 0.5 exactly 5 describe calls happen before the fetch. -/
theorem C1_timeout_falls_through_to_fetch (b : DataApiBackend) (sid sql db ci : String) (du sa : Option String)
    (hci : ci ≠ "") (hexec : b.execResult = Except.ok sid)
    (hnt : ∀ k, isFinished (b.describe k).1 = false ∧ isFailureStatus (b.describe k).1 = false) :
    executeQueryDataApi b sql db (some ci) Option.none du sa true (1/10) (1/2)
      = { events := ApiEvent.execCall (buildKwargs sql db (some ci) Option.none du sa) ::
            (List.replicate 5 (ApiEvent.describeCall sid) ++ [ApiEvent.getResultCall sid]),
          result := some (fetchAndDecode b) } := by
  have hpoll := pollStatuses_stuck b.describe hnt
  simp only [one_div] at hpoll
  simp [executeQueryDataApi, optStrTruthy, hci, hexec, hpoll]

/-- Counterexample for C1 as stated: against a backend that never reports a
terminal status, with poll_interval 0.1 and timeout 0.5, the call DOES invoke
`get_statement_result` (and the code has no LocalTimeout error at all). -/
theorem C1_counterexample :
    ApiEvent.getResultCall "sid-1"
      ∈ (executeQueryDataApi stuckBackend "SELECT 1" "dev" (some "c1") Option.none
          Option.none Option.none true (1/10) (1/2)).events := by
  have hpoll := pollStatuses_stuck stuckBackend.describe (fun k => ⟨rfl, rfl⟩)
  simp only [one_div] at hpoll
  have hexec : stuckBackend.execResult = Except.ok "sid-1" := rfl
  simp [executeQueryDataApi, optStrTruthy, hexec, hpoll]

/-- Witness for C1's amended theorem at the concrete stuck backend. -/
theorem C1_witness :
    executeQueryDataApi stuckBackend "SELECT 1" "dev" (some "c1") Option.none Option.none
        Option.none true (1/10) (1/2)
      = { events := ApiEvent.execCall (buildKwargs "SELECT 1" "dev" (some "c1")
            Option.none Option.none Option.none) ::
            (List.replicate 5 (ApiEvent.describeCall "sid-1")
              ++ [ApiEvent.getResultCall "sid-1"]),
          result := some (fetchAndDecode stuckBackend) } :=
  C1_timeout_falls_through_to_fetch stuckBackend "sid-1" "SELECT 1" "dev" "c1" Option.none Option.none
    (by decide) rfl (fun k => ⟨rfl, rfl⟩)
